import Mathlib

set_option maxHeartbeats 1000000

/-!
Shallow embedding of omlite.py: a minimal object-relational mapper for sqlite.

Python objects are modelled as association lists from attribute names to
attribute contents; the sqlite connection is modelled as abstract data plus a
savepoint stack (each savepoint remembers the data snapshot that a
`ROLLBACK TO SAVEPOINT` restores) and a trace of the transaction-control
statements executed on it.  The two `assert` statements of
`Database.transaction` (counter nonnegative, autocommit isolation level) are
modelled as theorem hypotheses where they matter; `connect` always puts the
connection in autocommit mode, so the second assert cannot fire.
-/

namespace Omlite

/-- SQL-storable primitive values; sqlite integers and strings are the only
kinds this repository stores (autoincrement row ids and uuid strings). -/
inductive Value where
  | int (i : Int)
  | str (s : String)
deriving DecidableEq

/-- Content of a Python attribute of a mapped instance: either the attribute
still holds the class-level `Field` descriptor (the uninitialized sentinel
tested by `getattr(object, attr) is field`), or it has been assigned a value,
where `none` models Python `None` / SQL NULL. -/
inductive Attr where
  | uninit
  | val (v : Option Value)
deriving DecidableEq

/-- A Python instance: attribute assignments, most recent first.  A fresh
instance has no instance attributes, so lookup falls back to the class-level
`Field` descriptor, i.e. to the uninitialized sentinel. -/
abbrev Obj := List (String × Attr)

/-- Python `getattr`: the most recent assignment, or the class-level `Field`
descriptor (sentinel) when the instance never assigned the attribute. -/
def getattr (o : Obj) (a : String) : Attr :=
  match o.find? (fun p => p.1 == a) with
  | some p => p.2
  | none => Attr.uninit

/-- Python `setattr`: record a new assignment, shadowing older ones. -/
def setattr (o : Obj) (a : String) (v : Attr) : Obj :=
  (a, v) :: o

/-- StorableMeta.initialize_fields: initialize all uninitialized database
fields to None (`for attr, field in self.fields.items(): if getattr(object,
attr) is field: setattr(object, attr, None)`). -/
def initialize_fields (fields : List String) (o : Obj) : Obj :=
  fields.foldl
    (fun acc a => if getattr acc a = Attr.uninit then setattr acc a (Attr.val none) else acc)
    o

/-- Construction of a mapped instance: the patched `__init__` installed by
`get_storable` runs the original initializer, then `meta.initialize_fields`.
`origInit` models the (possibly subclass-provided) original initializer acting
on the fresh attribute-less instance. -/
def construct (fields : List String) (origInit : Obj → Obj) : Obj :=
  initialize_fields fields (origInit [])

/-- Insertion into an alphabetically sorted list of field names. -/
def insertSorted (x : String) : List String → List String
  | [] => [x]
  | y :: ys => if y < x then y :: insertSorted x ys else x :: y :: ys

/-- Python `sorted` on the field-name keys (insertion sort; total order on
strings, duplicates kept). -/
def sortStrings : List String → List String
  | [] => []
  | x :: xs => insertSorted x (sortStrings xs)

/-- Per-class metadata: the field-name set (keys of the `fields` dict built by
`get_db_fields`) and the table name. -/
structure StorableMeta where
  fields : List String
  table_name : String
deriving DecidableEq

/-- StorableMeta.ordered_fields = `tuple(sorted(self.fields))`. -/
def ordered_fields (m : StorableMeta) : List String :=
  sortStrings m.fields

/-- Primary-key strategies of omlite: the base `PrimaryKey` (generate_id is
`pass`), `AutoincrementPrimaryKey` (inherits the no-op generate_id), and
`UUIDPrimaryKey`, whose payload is the string `str(self.uuid_generator())`
that the wrapped uuid generator would produce for this call. -/
inductive PrimaryKey where
  | plain
  | autoincrement
  | uuidKey (generated : String)
deriving DecidableEq

/-- PrimaryKey.generate_id / UUIDPrimaryKey.generate_id: only the UUID
strategy assigns, and only when the id is currently None. -/
def generate_id : PrimaryKey → Obj → Obj
  | PrimaryKey.plain, o => o
  | PrimaryKey.autoincrement, o => o
  | PrimaryKey.uuidKey g, o =>
      if getattr o "id" = Attr.val none
      then setattr o "id" (Attr.val (some (Value.str g)))
      else o

/-- PrimaryKey.save_generated_id (shared by every strategy): after the INSERT,
adopt `cursor.lastrowid` only when the id is still None. -/
def save_generated_id (lastrowid : Int) (o : Obj) : Obj :=
  if getattr o "id" = Attr.val none
  then setattr o "id" (Attr.val (some (Value.int lastrowid)))
  else o

/-- Errors surfaced by the mapper. `IndexError` (raised by `[0]` on an empty
list in `get`) is a subclass of Python `LookupError`, hence `lookupError`. -/
inductive OmError (ε : Type) where
  | sql (e : ε)
  | assertFailed
  | lookupError
deriving DecidableEq

/-- A result row paired with the cursor's column description: column name and
column value, in result order. -/
abbrev Row := List (String × Option Value)

/-- Cursor lifecycle events, for the resource-leak claims. -/
inductive CursorEvent where
  | opened
  | closed
deriving DecidableEq

/-- Database.get_cursor: open a fresh cursor, execute the statement on it.
On success the (still open) cursor is returned wrapped in
`contextlib.closing`; on failure the cursor is closed before the exception
propagates.  The outcome of the sqlite-level execution is the `execResult`
parameter, since the engine is external to this module. -/
def Database.get_cursor {ε : Type} (execResult : Except ε (List Row)) (tr : List CursorEvent) :
    Except ε (List Row) × List CursorEvent :=
  let tr1 := tr ++ [CursorEvent.opened]
  match execResult with
  | Except.ok rows => (Except.ok rows, tr1)
  | Except.error e => (Except.error e, tr1 ++ [CursorEvent.closed])

/-- Database.execute_sql: `with self.get_cursor(sql, params): pass` — the
`with` block closes the scoped cursor on exit. -/
def Database.execute_sql {ε : Type} (execResult : Except ε (List Row)) (tr : List CursorEvent) :
    Except ε Unit × List CursorEvent :=
  match Database.get_cursor execResult tr with
  | (Except.ok _, tr2) => (Except.ok (), tr2 ++ [CursorEvent.closed])
  | (Except.error e, tr2) => (Except.error e, tr2)

/-- read_row's column-assignment loop: `for idx, col in enumerate(
cursor.description): assert dbattr in meta.fields; setattr(obj, dbattr,
row[idx])`. -/
def assignCols {ε : Type} (fields : List String) : Obj → Row → Except (OmError ε) Obj
  | o, [] => Except.ok o
  | o, (c, v) :: rest =>
      if c ∈ fields
      then assignCols fields (setattr o c (Attr.val v)) rest
      else Except.error OmError.assertFailed

/-- read_row: construct a fresh instance, assign every result column onto it
(asserting each column is a declared field), then re-apply
`meta.initialize_fields`. -/
def read_row {ε : Type} (fields : List String) (origInit : Obj → Obj) (row : Row) :
    Except (OmError ε) Obj :=
  match assignCols fields (construct fields origInit) row with
  | Except.error e => Except.error e
  | Except.ok o => Except.ok (initialize_fields fields o)

/-- The materialization loop of `filter`: one `read_row` per result row, in
cursor order; the generator ends when the cursor is exhausted. -/
def filterRows {ε : Type} (fields : List String) (origInit : Obj → Obj) :
    List Row → Except (OmError ε) (List Obj)
  | [] => Except.ok []
  | r :: rs =>
      match @read_row ε fields origInit r with
      | Except.error e => Except.error e
      | Except.ok o =>
          match @filterRows ε fields origInit rs with
          | Except.error e => Except.error e
          | Except.ok os => Except.ok (o :: os)

/-- filter, with the cursor lifecycle made explicit: `with
meta.database.get_cursor(sql, params) as cursor: while True: yield
read_row(...)`.  A failing execute closes the cursor inside get_cursor; any
other exit path leaves the `with` block, closing the cursor. -/
def filterQ {ε : Type} (fields : List String) (origInit : Obj → Obj)
    (execResult : Except ε (List Row)) (tr : List CursorEvent) :
    Except (OmError ε) (List Obj) × List CursorEvent :=
  match Database.get_cursor execResult tr with
  | (Except.error e, tr2) => (Except.error (OmError.sql e), tr2)
  | (Except.ok rows, tr2) =>
      match @filterRows ε fields origInit rows with
      | Except.ok objs => (Except.ok objs, tr2 ++ [CursorEvent.closed])
      | Except.error e => (Except.error e, tr2 ++ [CursorEvent.closed])

/-- A consumer that abandons the lazy sequence after `k` elements: closing
the generator exits its `with` block, which closes the cursor. -/
def filterQTake {ε : Type} (fields : List String) (origInit : Obj → Obj)
    (execResult : Except ε (List Row)) (tr : List CursorEvent) (k : Nat) :
    Except (OmError ε) (List Obj) × List CursorEvent :=
  match Database.get_cursor execResult tr with
  | (Except.error e, tr2) => (Except.error (OmError.sql e), tr2)
  | (Except.ok rows, tr2) =>
      match @filterRows ε fields origInit (rows.take k) with
      | Except.ok objs => (Except.ok objs, tr2 ++ [CursorEvent.closed])
      | Except.error e => (Except.error e, tr2 ++ [CursorEvent.closed])

/-- get: `list(filter(storable_class, 'id=?', id))[0]`.  `rows` is the result
set of `SELECT * FROM table WHERE id=?`.  `[0]` on an empty list raises
IndexError, a LookupError. -/
def get {ε : Type} (fields : List String) (origInit : Obj → Obj) (rows : List Row) :
    Except (OmError ε) Obj :=
  match @filterRows ε fields origInit rows with
  | Except.error e => Except.error e
  | Except.ok [] => Except.error OmError.lookupError
  | Except.ok (x :: _) => Except.ok x

/-- The `set_fields` local of `_update`: one `attr = ?` item per ordered
field. -/
def update_set_fields (m : StorableMeta) : List String :=
  (ordered_fields m).map (fun a => a ++ " = ?")

/-- The `values` local of `_update`: the instance's attribute content for each
ordered field. -/
def update_values (m : StorableMeta) (o : Obj) : List Attr :=
  (ordered_fields m).map (getattr o)

/-- _update: the SQL text and the bound parameters (`values + [object.id]`). -/
def updateStmt (m : StorableMeta) (o : Obj) : String × List Attr :=
  ("UPDATE " ++ m.table_name ++ " SET " ++ String.intercalate ", " (update_set_fields m)
      ++ " WHERE id=?",
   update_values m o ++ [getattr o "id"])

/-- The INSERT built by `create`: field list and placeholders over the ordered
fields, parameters taken from the instance after id generation. -/
def insertStmt (m : StorableMeta) (o : Obj) : String × List Attr :=
  ("INSERT INTO " ++ m.table_name ++ "(" ++ String.intercalate ", " (ordered_fields m)
      ++ ") VALUES (" ++ String.intercalate ", " (List.replicate (ordered_fields m).length "?")
      ++ ")",
   (ordered_fields m).map (getattr o))

/-- create: generate_id, execute the INSERT, then save_generated_id with the
cursor's lastrowid.  Returns the mutated instance and the executed
statement. -/
def create (m : StorableMeta) (pk : PrimaryKey) (lastrowid : Int) (o : Obj) :
    Obj × (String × List Attr) :=
  let o1 := generate_id pk o
  (save_generated_id lastrowid o1, insertStmt m o1)

/-- save: create when `object.id is None`, else `_update`. -/
def save (m : StorableMeta) (pk : PrimaryKey) (lastrowid : Int) (o : Obj) :
    Obj × (String × List Attr) :=
  if getattr o "id" = Attr.val none
  then create m pk lastrowid o
  else (o, updateStmt m o)

/-- delete_but_keep_id: `DELETE FROM table WHERE id=?` bound to the current
id. -/
def delete_but_keep_id (m : StorableMeta) (o : Obj) : String × List Attr :=
  ("DELETE FROM " ++ m.table_name ++ " WHERE id=?", [getattr o "id"])

/-- delete: issue the DELETE, then set the instance's id to None.  The
`clear_id` parameter is accepted but never read by the source. -/
def delete (m : StorableMeta) (o : Obj) (clear_id : Bool) : Obj × (String × List Attr) :=
  (setattr o "id" (Attr.val none), delete_but_keep_id m o)

/-- State of a sqlite connection: current data, the savepoint stack
(innermost first, each entry remembering the snapshot a rollback restores),
and the trace of transaction-control statements executed. -/
structure Connection (α : Type) where
  data : α
  savepoints : List (String × α)
  trace : List String
deriving DecidableEq

/-- SAVEPOINT name: push a new savepoint over the current data. -/
def Connection.savepoint {α : Type} (n : String) (c : Connection α) : Connection α :=
  { data := c.data,
    savepoints := (n, c.data) :: c.savepoints,
    trace := c.trace ++ ["SAVEPOINT " ++ n] }

/-- RELEASE SAVEPOINT name: pop the stack through the named savepoint, keeping
the current data.  (sqlite errors when the name is absent; the mapper never
releases an absent name, so that path only records the statement.) -/
def Connection.releaseSavepoint {α : Type} (n : String) (c : Connection α) : Connection α :=
  match c.savepoints.dropWhile (fun p => p.1 != n) with
  | [] => { c with trace := c.trace ++ ["RELEASE SAVEPOINT " ++ n] }
  | _ :: rest =>
      { data := c.data, savepoints := rest,
        trace := c.trace ++ ["RELEASE SAVEPOINT " ++ n] }

/-- ROLLBACK TO SAVEPOINT name: discard savepoints above the named one,
restore its snapshot, and keep the named savepoint itself on the stack (sqlite
semantics: ROLLBACK TO does not release). -/
def Connection.rollbackTo {α : Type} (n : String) (c : Connection α) : Connection α :=
  match c.savepoints.dropWhile (fun p => p.1 != n) with
  | [] => { c with trace := c.trace ++ ["ROLLBACK TO SAVEPOINT " ++ n] }
  | (m, d) :: rest =>
      { data := d, savepoints := (m, d) :: rest,
        trace := c.trace ++ ["ROLLBACK TO SAVEPOINT " ++ n] }

/-- A Database handle: one connection and the nesting counter of open
transactions. -/
structure Database (α : Type) where
  connection : Connection α
  open_transactions : Int
deriving DecidableEq

/-- The savepoint name derived from the nesting depth:
`'omlite_' + str(open_transactions)`. -/
def savepointName (n : Int) : String :=
  "omlite_" ++ toString n

/-- The entry steps of `Database.transaction`: execute
`SAVEPOINT omlite_<depth>`, then increment the nesting counter. -/
def Database.transactionEntry {α : Type} (s : Database α) : Database α :=
  { connection := s.connection.savepoint (savepointName s.open_transactions),
    open_transactions := s.open_transactions + 1 }

/-- Database.transaction: savepoint + increment on entry; on a clean body,
RELEASE SAVEPOINT; on a failing body, ROLLBACK TO SAVEPOINT and re-propagate
the same exception; the counter is decremented on either path (`finally`).
The body receives the handle state and returns the state at its exit together
with the exception propagating out of it, if any. -/
def Database.transaction {α ε : Type} (body : Database α → Database α × Option ε)
    (s : Database α) : Database α × Option ε :=
  let name := savepointName s.open_transactions
  match body s.transactionEntry with
  | (t, none) =>
      ({ connection := t.connection.releaseSavepoint name,
         open_transactions := t.open_transactions - 1 }, none)
  | (t, some e) =>
      ({ connection := t.connection.rollbackTo name,
         open_transactions := t.open_transactions - 1 }, some e)

/-- A fresh sqlite connection to `dbref`: the data the new connection sees,
no savepoints, and the foreign-key pragma executed by `enable_foreign_keys`. -/
def freshConnection {α : Type} (initData : α) : Connection α :=
  { data := initData, savepoints := [], trace := ["PRAGMA foreign_keys=ON"] }

/-- Database.connect: replace the connection with a fresh one to `dbref`
(whose visible content is `initData`), set autocommit, enable foreign keys.
No other handle state is touched. -/
def Database.connect {α : Type} (dbref : String) (initData : α) (s : Database α) : Database α :=
  { s with connection := freshConnection initData }

/-- Database.__init__: set `open_transactions = 0`, then connect (the default
dbref `':memory:'` is truthy, so connect always runs). -/
def Database.initDb {α : Type} (dbref : String) (initData : α) : Database α :=
  Database.connect dbref initData
    { connection := freshConnection initData, open_transactions := 0 }

/-- Decimal digit value of the characters produced by `Nat.digitChar`;
inverse of `Nat.digitChar` below 10. -/
def digitVal (c : Char) : Nat :=
  if c = '0' then 0 else
  if c = '1' then 1 else
  if c = '2' then 2 else
  if c = '3' then 3 else
  if c = '4' then 4 else
  if c = '5' then 5 else
  if c = '6' then 6 else
  if c = '7' then 7 else
  if c = '8' then 8 else
  if c = '9' then 9 else 10

/-- Value of a decimal digit string, used to invert `Nat.repr`. -/
def interpDigits (l : List Char) : Nat :=
  l.foldl (fun a c => a * 10 + digitVal c) 0

theorem getattr_setattr (o : Obj) (a b : String) (v : Attr) :
    getattr (setattr o a v) b = if b = a then v else getattr o b := by
  simp only [getattr, setattr, List.find?]
  by_cases h : b = a
  · subst h
    simp
  · have hba : (a == b) = false := by
      simp [Ne.symm h]
    simp [h, hba]

theorem getattr_initialize_fields (fields : List String) (o : Obj) (f : String) :
    getattr (initialize_fields fields o) f =
      if f ∈ fields ∧ getattr o f = Attr.uninit then Attr.val none else getattr o f := by
  induction fields generalizing o with
  | nil => simp [initialize_fields]
  | cons a as ih =>
    have step :
        initialize_fields (a :: as) o =
          initialize_fields as
            (if getattr o a = Attr.uninit then setattr o a (Attr.val none) else o) := by
      simp [initialize_fields]
    rw [step, ih]
    by_cases hfa : f = a
    · subst hfa
      by_cases ho : getattr o f = Attr.uninit
      · simp [ho, getattr_setattr]
      · simp [ho]
    · by_cases hoa : getattr o a = Attr.uninit
      · simp [hoa, getattr_setattr, hfa, List.mem_cons]
      · simp [hoa, hfa, List.mem_cons]

/-- C8: constructing a mapped instance runs the type's original initializer
and then defaults to null only those declared fields still holding their
uninitialized sentinel; every field already assigned by the initializer
(including one set by a subclass initializer) is left unchanged, and after
construction every declared field is set. -/
theorem C8_construct_defaults (fields : List String) (origInit : Obj → Obj) (f : String)
    (hf : f ∈ fields) :
    (∀ v, getattr (origInit []) f = Attr.val v →
        getattr (construct fields origInit) f = Attr.val v) ∧
    (getattr (origInit []) f = Attr.uninit →
        getattr (construct fields origInit) f = Attr.val none) ∧
    (∃ v, getattr (construct fields origInit) f = Attr.val v) := by
  unfold construct
  rw [getattr_initialize_fields]
  refine ⟨?_, ?_, ?_⟩
  · intro v hv
    simp [hv]
  · intro hv
    simp [hv, hf]
  · cases hcase : getattr (origInit []) f with
    | uninit => exact ⟨none, by simp [hcase, hf]⟩
    | val v => exact ⟨v, by simp [hcase]⟩

/-- C8 witness: a subclass initializer presets field `a`; construction keeps
that value instead of clobbering it back to null. -/
theorem C8_witness :
    getattr (construct ["a", "id"]
        (fun o => setattr o "a" (Attr.val (some (Value.str "x"))))) "a"
      = Attr.val (some (Value.str "x")) :=
  (C8_construct_defaults ["a", "id"]
      (fun o => setattr o "a" (Attr.val (some (Value.str "x")))) "a"
      (by simp)).1 (some (Value.str "x")) (by rfl)

/-- C2: get materializes the first row of the matching result set; zero
matching rows produce a lookup (not-found) failure propagated to the caller;
more than one matching row is not an error — the first row in result order is
returned. -/
theorem C2_get_semantics {ε : Type} (fields : List String) (origInit : Obj → Obj) :
    (@get ε fields origInit [] = Except.error OmError.lookupError) ∧
    (∀ (row : Row) (rest : List Row) (x : Obj) (xs : List Obj),
      @read_row ε fields origInit row = Except.ok x →
      @filterRows ε fields origInit rest = Except.ok xs →
      @get ε fields origInit (row :: rest) = Except.ok x) := by
  constructor
  · rfl
  · intro row rest x xs h1 h2
    simp [get, filterRows, h1, h2]

/-- C2 witness: a one-row result set is materialized and returned; the
not-found branch is exercised on the empty result set. -/
theorem C2_witness :
    @get Unit ["id"] (fun o => o) [] = Except.error OmError.lookupError ∧
    @get Unit ["id"] (fun o => o) [[("id", some (Value.int 0))]]
      = Except.ok [("id", Attr.val (some (Value.int 0))), ("id", Attr.val none)] :=
  ⟨(C2_get_semantics ["id"] (fun o => o)).1,
   (C2_get_semantics ["id"] (fun o => o)).2 [("id", some (Value.int 0))] [] _ [] (by rfl) (by rfl)⟩

theorem mem_insertSorted (x y : String) (l : List String) :
    y ∈ insertSorted x l ↔ y = x ∨ y ∈ l := by
  induction l with
  | nil => simp [insertSorted]
  | cons a as ih =>
    simp only [insertSorted]
    by_cases h : a < x
    · simp only [h, if_true, List.mem_cons, ih]
      tauto
    · simp only [h, if_false, List.mem_cons]

theorem mem_sortStrings (y : String) (l : List String) :
    y ∈ sortStrings l ↔ y ∈ l := by
  induction l with
  | nil => simp [sortStrings]
  | cons a as ih => simp [sortStrings, mem_insertSorted, ih]

theorem length_insertSorted (x : String) (l : List String) :
    (insertSorted x l).length = l.length + 1 := by
  induction l with
  | nil => rfl
  | cons a as ih =>
    simp only [insertSorted]
    by_cases h : a < x
    · simp [h, ih]
    · simp [h]

theorem length_sortStrings (l : List String) :
    (sortStrings l).length = l.length := by
  induction l with
  | nil => rfl
  | cons a as ih => simp [sortStrings, length_insertSorted, ih]

/-- C4 counterexample: reconnecting while a transaction is in flight
(`open_transactions = 1`) leaves the counter at 1 — `connect` never touches
`open_transactions`, so it is not zero immediately after connect returns. -/
theorem C4_counterexample :
    (Database.connect "other.db" (7 : Nat)
        { connection := { data := 0, savepoints := [("omlite_0", 0)], trace := [] },
          open_transactions := 1 }).open_transactions ≠ 0 := by
  decide

/-- C4 amended: connect installs a fresh connection, so no sqlite-level
savepoints survive the reconnect, and leaves every other handle field —
including the open_transactions counter — unchanged; the counter is zero
immediately after Database.__init__ (which zeroes it and then connects), not
after a bare connect. -/
theorem C4_amended_connect {α : Type} (dbref : String) (initData : α) (s : Database α) :
    (Database.connect dbref initData s).connection.savepoints = [] ∧
    (Database.connect dbref initData s).open_transactions = s.open_transactions ∧
    (Database.initDb dbref initData).open_transactions = 0 :=
  ⟨rfl, rfl, rfl⟩

/-- C5 counterexample: for the test suite's `aa` table (declared fields `a`
and `id`) the generated UPDATE assigns the primary-key column `id` inside its
SET clause, contradicting the claim that `id` is not among the assigned
columns. -/
theorem C5_counterexample :
    "id = ?" ∈ update_set_fields { fields := ["a", "id"], table_name := "aa" } ∧
    (updateStmt { fields := ["a", "id"], table_name := "aa" }
        [("id", Attr.val (some (Value.int 0)))]).1
      = "UPDATE aa SET a = ?, id = ? WHERE id=?" := by
  have h1 : ¬ ("id" : String) < "a" := by
    rw [String.lt_iff_toList_lt]
    decide
  have hsort : sortStrings ["a", "id"] = ["a", "id"] := by
    simp only [sortStrings, insertSorted, if_neg h1]
  constructor
  · simp only [update_set_fields, ordered_fields, hsort]
    decide
  · simp only [updateStmt, update_set_fields, ordered_fields, hsort]
    rfl

/-- C5 amended: update builds a single parameterized UPDATE whose SET clause
assigns every declared field — the primary key `id` included, reassigned its
current value — with the target row selected by `WHERE id=?` bound to the
instance's id as the last parameter; save on a non-null-id instance delegates
to exactly this UPDATE. -/
theorem C5_update_assigns_all_fields (m : StorableMeta) (o : Obj) (pk : PrimaryKey)
    (lastrowid : Int) (v : Value) (f : String)
    (hf : f ∈ m.fields) (hid : "id" ∈ m.fields) (hv : getattr o "id" = Attr.val (some v)) :
    (f ++ " = ?") ∈ update_set_fields m ∧
    "id = ?" ∈ update_set_fields m ∧
    (update_set_fields m).length = m.fields.length ∧
    (updateStmt m o).2.getLast? = some (Attr.val (some v)) ∧
    save m pk lastrowid o = (o, updateStmt m o) := by
  refine ⟨?_, ?_, ?_, ?_, ?_⟩
  · exact List.mem_map.mpr ⟨f, (mem_sortStrings f m.fields).mpr hf, rfl⟩
  · exact List.mem_map.mpr ⟨"id", (mem_sortStrings "id" m.fields).mpr hid, rfl⟩
  · simp [update_set_fields, ordered_fields, length_sortStrings]
  · simp [updateStmt, hv]
  · simp [save, hv]

/-- C5 witness at the `aa` table metadata and a persisted instance. -/
theorem C5_witness :
    ("a" ++ " = ?") ∈ update_set_fields { fields := ["a", "id"], table_name := "aa" } ∧
    "id = ?" ∈ update_set_fields { fields := ["a", "id"], table_name := "aa" } ∧
    (update_set_fields { fields := ["a", "id"], table_name := "aa" }).length
      = (["a", "id"] : List String).length ∧
    (updateStmt { fields := ["a", "id"], table_name := "aa" }
        [("id", Attr.val (some (Value.int 0))), ("a", Attr.val (some (Value.str "x")))]).2.getLast?
      = some (Attr.val (some (Value.int 0))) ∧
    save { fields := ["a", "id"], table_name := "aa" } PrimaryKey.autoincrement 0
        [("id", Attr.val (some (Value.int 0))), ("a", Attr.val (some (Value.str "x")))]
      = ([("id", Attr.val (some (Value.int 0))), ("a", Attr.val (some (Value.str "x")))],
         updateStmt { fields := ["a", "id"], table_name := "aa" }
           [("id", Attr.val (some (Value.int 0))), ("a", Attr.val (some (Value.str "x")))]) :=
  C5_update_assigns_all_fields { fields := ["a", "id"], table_name := "aa" }
    [("id", Attr.val (some (Value.int 0))), ("a", Attr.val (some (Value.str "x")))]
    PrimaryKey.autoincrement 0 (Value.int 0) "a" (by simp) (by simp) (by rfl)

/-- C9: get_cursor closes the cursor before a failing execution propagates,
and the scoped handle it returns on success is closed when the scope exits
(execute_sql); on every execution path of execute_sql the cursor events are
exactly one open followed by one close — no cursor is leaked. -/
theorem C9_cursor_never_leaked {ε : Type} (e : ε) (rows : List Row) (tr : List CursorEvent) :
    Database.get_cursor (Except.error e) tr
      = (Except.error e, tr ++ [CursorEvent.opened, CursorEvent.closed]) ∧
    @Database.execute_sql ε (Except.ok rows) tr
      = (Except.ok (), tr ++ [CursorEvent.opened, CursorEvent.closed]) ∧
    (∀ r : Except ε (List Row),
      (Database.execute_sql r tr).2 = tr ++ [CursorEvent.opened, CursorEvent.closed]) := by
  refine ⟨?_, ?_, ?_⟩
  · simp [Database.get_cursor]
  · simp [Database.execute_sql, Database.get_cursor]
  · intro r
    cases r <;> simp [Database.execute_sql, Database.get_cursor]

/-- C10: the clear_id parameter of delete has no effect — for both values the
DELETE is keyed by the current id and the instance's id is unconditionally
set to None afterwards, with every other attribute untouched. -/
theorem C10_delete_ignores_clear_id (m : StorableMeta) (o : Obj) (b : Bool) :
    delete m o b = delete m o true ∧
    getattr (delete m o b).1 "id" = Attr.val none ∧
    (∀ f : String, f ≠ "id" → getattr (delete m o b).1 f = getattr o f) ∧
    (delete m o b).2 = ("DELETE FROM " ++ m.table_name ++ " WHERE id=?", [getattr o "id"]) := by
  refine ⟨rfl, ?_, ?_, rfl⟩
  · simp [delete, getattr_setattr]
  · intro f hf
    simp [delete, getattr_setattr, hf]

/-- C10 witness: delete with clear_id=False behaves exactly as with the
default, clearing the id and leaving other attributes alone. -/
theorem C10_witness :
    delete { fields := ["a", "id"], table_name := "aa" }
        [("id", Attr.val (some (Value.int 3))), ("a", Attr.val (some (Value.str "y")))] false
      = delete { fields := ["a", "id"], table_name := "aa" }
          [("id", Attr.val (some (Value.int 3))), ("a", Attr.val (some (Value.str "y")))] true ∧
    getattr (delete { fields := ["a", "id"], table_name := "aa" }
        [("id", Attr.val (some (Value.int 3))), ("a", Attr.val (some (Value.str "y")))] false).1 "id"
      = Attr.val none ∧
    getattr (delete { fields := ["a", "id"], table_name := "aa" }
        [("id", Attr.val (some (Value.int 3))), ("a", Attr.val (some (Value.str "y")))] false).1 "a"
      = getattr [("id", Attr.val (some (Value.int 3))), ("a", Attr.val (some (Value.str "y")))] "a" := by
  have T := C10_delete_ignores_clear_id { fields := ["a", "id"], table_name := "aa" }
    [("id", Attr.val (some (Value.int 3))), ("a", Attr.val (some (Value.str "y")))] false
  exact ⟨T.1, T.2.1, T.2.2.1 "a" (by decide)⟩

/-- C6: filter yields one materialized instance per matching row, in cursor
order, terminating normally after the last row; the cursor opened for the
scope of the iteration is closed when the sequence is exhausted, when the
consumer abandons it early, and when execution fails before iteration. -/
theorem C6_filter_streams {ε : Type} (fields : List String) (origInit : Obj → Obj) :
    (∀ (rows : List Row) (objs : List Obj),
      List.Forall₂ (fun r o => @read_row ε fields origInit r = Except.ok o) rows objs →
      @filterRows ε fields origInit rows = Except.ok objs ∧ objs.length = rows.length) ∧
    (∀ (execRows : List Row) (tr : List CursorEvent),
      (@filterQ ε fields origInit (Except.ok execRows) tr).2
        = tr ++ [CursorEvent.opened, CursorEvent.closed]) ∧
    (∀ (e : ε) (tr : List CursorEvent),
      filterQ fields origInit (Except.error e) tr
        = (Except.error (OmError.sql e), tr ++ [CursorEvent.opened, CursorEvent.closed])) ∧
    (∀ (execRows : List Row) (tr : List CursorEvent) (k : Nat),
      (@filterQTake ε fields origInit (Except.ok execRows) tr k).2
        = tr ++ [CursorEvent.opened, CursorEvent.closed]) := by
  refine ⟨?_, ?_, ?_, ?_⟩
  · intro rows objs h
    induction h with
    | nil => exact ⟨rfl, rfl⟩
    | cons hro _ ih =>
      constructor
      · simp only [filterRows, hro, ih.1]
      · simp [ih.2]
  · intro execRows tr
    simp only [filterQ, Database.get_cursor]
    cases @filterRows ε fields origInit execRows <;> simp
  · intro e tr
    simp [filterQ, Database.get_cursor]
  · intro execRows tr k
    simp only [filterQTake, Database.get_cursor]
    cases @filterRows ε fields origInit (execRows.take k) <;> simp

/-- C6 witness: a one-row result set yields exactly one instance, and the
cursor event trace of a full scan is one open followed by one close. -/
theorem C6_witness :
    @filterRows Unit ["id"] (fun o => o) [[("id", some (Value.int 0))]]
      = Except.ok [[("id", Attr.val (some (Value.int 0))), ("id", Attr.val none)]] ∧
    ([[("id", Attr.val (some (Value.int 0))), ("id", Attr.val none)]] : List Obj).length
      = ([[("id", some (Value.int 0))]] : List Row).length := by
  exact (C6_filter_streams ["id"] (fun o => o)).1 [[("id", some (Value.int 0))]]
    [[("id", Attr.val (some (Value.int 0))), ("id", Attr.val none)]]
    (List.Forall₂.cons (by rfl) List.Forall₂.nil)

/-- C7: a primary-key strategy assigns a new id only when the instance's id
is unset: with a non-null id, generate_id is a no-op for every strategy and
create leaves the id unchanged (save_generated_id does not overwrite it); a
UUID strategy on a null id assigns the freshly generated uuid string before
the INSERT, whose parameters then carry that id. -/
theorem C7_id_generation (m : StorableMeta) (pk : PrimaryKey) (lastrowid : Int) (o : Obj) :
    (∀ v : Value, getattr o "id" = Attr.val (some v) →
      generate_id pk o = o ∧
      getattr (create m pk lastrowid o).1 "id" = Attr.val (some v)) ∧
    (∀ g : String, getattr o "id" = Attr.val none →
      getattr (generate_id (PrimaryKey.uuidKey g) o) "id" = Attr.val (some (Value.str g)) ∧
      ("id" ∈ m.fields →
        Attr.val (some (Value.str g)) ∈ (create m (PrimaryKey.uuidKey g) lastrowid o).2.2)) := by
  constructor
  · intro v hv
    have hgen : generate_id pk o = o := by
      cases pk with
      | plain => rfl
      | autoincrement => rfl
      | uuidKey g => simp [generate_id, hv]
    refine ⟨hgen, ?_⟩
    simp [create, hgen, save_generated_id, hv]
  · intro g hg
    have hga : getattr (generate_id (PrimaryKey.uuidKey g) o) "id"
        = Attr.val (some (Value.str g)) := by
      simp [generate_id, hg, getattr_setattr]
    refine ⟨hga, ?_⟩
    intro hid
    simp only [create, insertStmt]
    exact List.mem_map.mpr ⟨"id", (mem_sortStrings "id" m.fields).mpr hid, hga⟩

/-- C7 witness: a pre-set id survives generate_id under a UUID strategy, and
a null id receives the freshly generated uuid string. -/
theorem C7_witness :
    generate_id (PrimaryKey.uuidKey "u") [("id", Attr.val (some (Value.str "pre")))]
      = [("id", Attr.val (some (Value.str "pre")))] ∧
    getattr (generate_id (PrimaryKey.uuidKey "u") [("id", Attr.val none)]) "id"
      = Attr.val (some (Value.str "u")) :=
  ⟨((C7_id_generation { fields := ["id"], table_name := "t" } (PrimaryKey.uuidKey "u") 0
      [("id", Attr.val (some (Value.str "pre")))]).1 (Value.str "pre") (by rfl)).1,
   ((C7_id_generation { fields := ["id"], table_name := "t" } (PrimaryKey.uuidKey "u") 0
      [("id", Attr.val none)]).2 "u" (by rfl)).1⟩

theorem dropWhile_savepoints {α : Type} (n : String) (extra : List (String × α)) (d : α)
    (rest : List (String × α)) (h : ∀ p ∈ extra, p.1 ≠ n) :
    (extra ++ (n, d) :: rest).dropWhile (fun p => p.1 != n) = (n, d) :: rest := by
  induction extra with
  | nil => simp [List.dropWhile]
  | cons q qs ih =>
    have hq : q.1 ≠ n := h q (List.mem_cons_self q qs)
    have hq' : (q.1 != n) = true := by simpa using hq
    simp only [List.cons_append, List.dropWhile, hq']
    exact ih (fun p hp => h p (List.mem_cons_of_mem q hp))

/-- C1: when the body of a transaction scope fails, the handle executes
ROLLBACK TO SAVEPOINT for that scope's savepoint name as its last statement
and re-propagates the same exception, and the connection data equals the
pre-entry state; on every exit path, failing or successful,
open_transactions returns to its pre-entry value.  The hypotheses say that
the body restores the nesting counter it received (which nested transaction
scopes do) and that the body leaves the scope's savepoint on the stack,
possibly below leftover inner savepoints with different names. -/
theorem C1_transaction_rollback {α ε : Type} (body : Database α → Database α × Option ε)
    (s : Database α)
    (hct : (body s.transactionEntry).1.open_transactions = s.open_transactions + 1) :
    ((Database.transaction body s).1.open_transactions = s.open_transactions) ∧
    (∀ (e : ε) (extra : List (String × α)),
      (body s.transactionEntry).2 = some e →
      (body s.transactionEntry).1.connection.savepoints
        = extra ++ (savepointName s.open_transactions, s.connection.data)
            :: s.connection.savepoints →
      (∀ p ∈ extra, p.1 ≠ savepointName s.open_transactions) →
      (Database.transaction body s).2 = some e ∧
      (Database.transaction body s).1.connection.data = s.connection.data ∧
      (Database.transaction body s).1.connection.trace.getLast?
        = some ("ROLLBACK TO SAVEPOINT " ++ savepointName s.open_transactions)) := by
  constructor
  · rcases hb : body s.transactionEntry with ⟨t, err⟩
    rw [hb] at hct
    simp only at hct
    cases err with
    | none =>
      simp only [Database.transaction, hb]
      omega
    | some e =>
      simp only [Database.transaction, hb]
      omega
  · intro e extra he hsp hne
    rcases hb : body s.transactionEntry with ⟨t, err⟩
    rw [hb] at he hsp
    simp only at he hsp
    subst he
    have hroll :
        Connection.rollbackTo (savepointName s.open_transactions) t.connection
          = { data := s.connection.data,
              savepoints := (savepointName s.open_transactions, s.connection.data)
                :: s.connection.savepoints,
              trace := t.connection.trace
                ++ ["ROLLBACK TO SAVEPOINT " ++ savepointName s.open_transactions] } := by
      simp only [Connection.rollbackTo, hsp,
        dropWhile_savepoints (savepointName s.open_transactions) extra s.connection.data
          s.connection.savepoints hne]
    refine ⟨?_, ?_, ?_⟩
    · simp only [Database.transaction, hb]
    · simp only [Database.transaction, hb, hroll]
    · simp only [Database.transaction, hb, hroll]
      simp

/-- C1 witness: a body that overwrites the data and then fails; the
transaction restores the data, re-raises the failure, issues the rollback for
savepoint omlite_0 and restores the depth counter. -/
theorem C1_witness :
    (Database.transaction
        (fun t => ({ connection := { data := 5, savepoints := t.connection.savepoints,
                                     trace := t.connection.trace },
                     open_transactions := t.open_transactions }, some ()))
        { connection := { data := (0 : Nat), savepoints := [], trace := [] },
          open_transactions := 0 }).2 = some () ∧
    (Database.transaction
        (fun t => ({ connection := { data := 5, savepoints := t.connection.savepoints,
                                     trace := t.connection.trace },
                     open_transactions := t.open_transactions }, some ()))
        { connection := { data := (0 : Nat), savepoints := [], trace := [] },
          open_transactions := 0 }).1.connection.data = 0 ∧
    (Database.transaction
        (fun t => ({ connection := { data := 5, savepoints := t.connection.savepoints,
                                     trace := t.connection.trace },
                     open_transactions := t.open_transactions }, some ()))
        { connection := { data := (0 : Nat), savepoints := [], trace := [] },
          open_transactions := 0 }).1.open_transactions = 0 ∧
    (Database.transaction
        (fun t => ({ connection := { data := 5, savepoints := t.connection.savepoints,
                                     trace := t.connection.trace },
                     open_transactions := t.open_transactions }, some ()))
        { connection := { data := (0 : Nat), savepoints := [], trace := [] },
          open_transactions := 0 }).1.connection.trace.getLast?
      = some ("ROLLBACK TO SAVEPOINT " ++ savepointName 0) := by
  have T := C1_transaction_rollback
    (fun t => ({ connection := { data := 5, savepoints := t.connection.savepoints,
                                 trace := t.connection.trace },
                 open_transactions := t.open_transactions }, some ()))
    { connection := { data := (0 : Nat), savepoints := [], trace := [] },
      open_transactions := 0 } (by rfl)
  have R := T.2 () [] (by rfl) (by rfl) (by simp)
  exact ⟨R.1, R.2.1, T.1, R.2.2⟩

theorem digitVal_digitChar : ∀ d : Nat, d < 10 → digitVal (Nat.digitChar d) = d := by
  decide

theorem interpDigits_concat (l : List Char) (c : Char) :
    interpDigits (l ++ [c]) = interpDigits l * 10 + digitVal c := by
  simp [interpDigits, List.foldl_append]

theorem toDigitsCore_shift (fuel : Nat) :
    ∀ (n : Nat) (ds : List Char),
      Nat.toDigitsCore 10 fuel n ds = Nat.toDigitsCore 10 fuel n [] ++ ds := by
  induction fuel with
  | zero => intro n ds; simp [Nat.toDigitsCore]
  | succ f ih =>
    intro n ds
    simp only [Nat.toDigitsCore]
    by_cases h : n / 10 = 0
    · simp [h]
    · simp only [h, if_false]
      rw [ih (n / 10) (Nat.digitChar (n % 10) :: ds), ih (n / 10) [Nat.digitChar (n % 10)]]
      simp

theorem interpDigits_toDigitsCore (fuel : Nat) :
    ∀ n : Nat, n < fuel → interpDigits (Nat.toDigitsCore 10 fuel n []) = n := by
  induction fuel with
  | zero => intro n h; omega
  | succ f ih =>
    intro n h
    simp only [Nat.toDigitsCore]
    by_cases h0 : n / 10 = 0
    · have hn : n < 10 := by omega
      simp only [h0, if_true]
      have : interpDigits [Nat.digitChar (n % 10)] = digitVal (Nat.digitChar (n % 10)) := by
        simp [interpDigits]
      rw [this, digitVal_digitChar (n % 10) (by omega)]
      omega
    · simp only [h0, if_false]
      rw [toDigitsCore_shift f (n / 10) [Nat.digitChar (n % 10)], interpDigits_concat,
        ih (n / 10) (by omega), digitVal_digitChar (n % 10) (by omega)]
      omega

theorem natRepr_injective (a b : Nat) (h : Nat.repr a = Nat.repr b) : a = b := by
  have hlist : Nat.toDigits 10 a = Nat.toDigits 10 b := by
    have hd := congrArg String.data h
    simpa [Nat.repr, List.asString] using hd
  have ha := interpDigits_toDigitsCore (a + 1) a (Nat.lt_succ_self a)
  have hb := interpDigits_toDigitsCore (b + 1) b (Nat.lt_succ_self b)
  rw [← ha, ← hb]
  simp only [Nat.toDigits] at hlist
  rw [hlist]

theorem savepointName_injective (m n : Int) (hm : 0 ≤ m) (hn : 0 ≤ n) (hne : m ≠ n) :
    savepointName m ≠ savepointName n := by
  obtain ⟨a, rfl⟩ := Int.eq_ofNat_of_zero_le hm
  obtain ⟨b, rfl⟩ := Int.eq_ofNat_of_zero_le hn
  intro hc
  apply hne
  have hdata := congrArg String.data hc
  simp only [savepointName, String.data_append] at hdata
  have hrepr : (toString (Int.ofNat a)).data = (toString (Int.ofNat b)).data :=
    List.append_cancel_left hdata
  have hab : Nat.repr a = Nat.repr b := by
    have h1 : toString (Int.ofNat a) = Nat.repr a := rfl
    have h2 : toString (Int.ofNat b) = Nat.repr b := rfl
    rw [h1, h2] at hrepr
    cases hra : Nat.repr a
    cases hrb : Nat.repr b
    rw [hra, hrb] at hrepr
    exact congrArg String.mk (by simpa using hrepr)
  rw [natRepr_injective a b hab]

/-- C3: entering a transaction scope increments the per-handle nesting depth
and issues SAVEPOINT with the name determined by the pre-entry depth, so the
body (and hence any nested transaction) runs at depth one higher; savepoint
names at distinct nonnegative depths are distinct, so simultaneously open
nested transactions on one handle never share a savepoint name. -/
theorem C3_savepoint_discipline {α : Type} (s : Database α) :
    (s.transactionEntry.open_transactions = s.open_transactions + 1 ∧
     s.transactionEntry.connection.trace
       = s.connection.trace ++ ["SAVEPOINT " ++ savepointName s.open_transactions]) ∧
    (∀ m n : Int, 0 ≤ m → 0 ≤ n → m ≠ n → savepointName m ≠ savepointName n) :=
  ⟨⟨rfl, rfl⟩, savepointName_injective⟩

/-- C3 witness: entry from depth 0 issues SAVEPOINT omlite_0 and moves the
handle to depth 1; the savepoint names of the two simultaneously open scopes
differ. -/
theorem C3_witness :
    (({ connection := { data := (0 : Nat), savepoints := [], trace := [] },
        open_transactions := 0 } : Database Nat)).transactionEntry.open_transactions = 0 + 1 ∧
    savepointName 0 ≠ savepointName 1 := by
  have T := C3_savepoint_discipline
    ({ connection := { data := (0 : Nat), savepoints := [], trace := [] },
       open_transactions := 0 } : Database Nat)
  exact ⟨T.1.1, T.2 0 1 (by omega) (by omega) (by omega)⟩

end Omlite
